import Mathlib

/-!
Verification of the revenue-analyzer core against its specification.

Python strings are modelled as lists of characters (`Str`).  The services
under `src/services` are shallowly embedded: pure validation functions
become Lean functions over `Str`, the external Supabase RPC becomes an
explicit function parameter, and pandas cell values become explicit data
with per-cell oracles for the library-level parsers (`pd.to_datetime`,
`pd.to_numeric`).
-/

/-- Python `str` modelled as a list of characters. -/
abbrev Str := List Char

/-- Coercion helper from Lean string literals. -/
def strL (s : String) : Str := s.data

/-- Python `str.lower()` (ASCII, which is all the repository uses). -/
def pyLower (s : Str) : Str := s.map Char.toLower

/-- Python `str.upper()` (ASCII). -/
def pyUpper (s : Str) : Str := s.map Char.toUpper

/-- Python `needle in hay` substring test. -/
def pyIn (needle hay : Str) : Bool := decide (needle <:+: hay)

/-- Characters treated as whitespace by Python `str.strip()` / regex `\s`
(space, tab, newline, carriage return, vertical tab, form feed). -/
def wsChar (c : Char) : Bool :=
  c = ' ' || c = '\t' || c = '\n' || c = '\r' || c = Char.ofNat 11 || c = Char.ofNat 12

/-- Python `str.strip()`: drop leading and trailing whitespace. -/
def pyStrip (s : Str) : Str :=
  ((s.dropWhile wsChar).reverse.dropWhile wsChar).reverse

/-- A single-quote character (used to build SQL literals). -/
def sqC : Char := '\''

namespace QueryExec

/-!
Embedding of `src/services/query_executor.py` (`QueryExecutor`) and of
`SQLGenerator.validate_sql_query` from `src/services/sql_generator.py`.
-/

/-- `forbidden_operations` from `QueryExecutor.validate_query_safety`. -/
def forbiddenOperations : List Str :=
  (["DROP", "DELETE", "TRUNCATE", "ALTER", "CREATE",
    "INSERT", "UPDATE", "GRANT", "REVOKE", "EXEC"]).map String.data

/-- `forbidden_patterns` (normalized-substring checks) from
`QueryExecutor.validate_query_safety`, as pattern/message pairs. -/
def forbiddenPatterns : List (Str × String) :=
  [ (strL ("SUM(TOTAL)"), "Cannot use SUM(total) - this inflates results by 12x"),
    (strL ("SUM(YTD_ACTUAL)"), "Cannot use SUM(ytd_actual) - use SUM(actual)"),
    (strL ("SUM(REMAINING_PROJECTION)"), "Cannot use SUM(remaining_projection)"),
    (strL ("AVG(TOTAL)"), "Cannot use AVG(total) - use AVG(actual/projected/budget)"),
    (strL ("MAX(TOTAL)"), "Cannot use MAX(total) - use MAX(actual/projected/budget)"),
    (strL ("MIN(TOTAL)"), "Cannot use MIN(total) - use MIN(actual/projected/budget)") ]

/-- `query_upper.replace(' ', '').replace('\n', '')`. -/
def removeSpaceNl (q : Str) : Str := q.filter (fun c => !(c = ' ' || c = '\n'))

/-- `pattern.replace(' ', '')` / `query_upper.replace(' ', '')`. -/
def removeSpace (q : Str) : Str := q.filter (fun c => !(c = ' '))

/-- `summary_cols` from the aggregation check. -/
def summaryCols : List Str :=
  (["TOTAL", "YTD_ACTUAL", "REMAINING_PROJECTION"]).map String.data

/-- The aggregation heads of the regex `(SUM|AVG|MAX|MIN)`. -/
def aggOps : List Str := (["SUM", "AVG", "MAX", "MIN"]).map String.data

/-- Drop a leading run of `\s` characters (the regex `\s*`, which is
maximal-munch equivalent here because each `\s*` is followed by a
non-whitespace literal). -/
def dropWsRun : Str → Str
  | [] => []
  | c :: cs => if wsChar c then dropWsRun cs else c :: cs

/-- Match `agg\s*\(\s*col\s*\)` at the head of `t`. -/
def aggAt (col t agg : Str) : Bool :=
  agg.isPrefixOf t &&
    (match dropWsRun (t.drop agg.length) with
     | '(' :: t2 =>
        let t3 := dropWsRun t2
        col.isPrefixOf t3 &&
          (match dropWsRun (t3.drop col.length) with
           | ')' :: _ => true
           | _ => false)
     | _ => false)

/-- `re.search(rf"(SUM|AVG|MAX|MIN)\s*\(\s*{col}\s*\)", query_upper)`:
the pattern matches at some position of `q`. -/
def aggRegexSearch (col q : Str) : Bool :=
  q.tails.any (fun t => aggOps.any (fun agg => aggAt col t agg))

/-- `QueryExecutor.validate_query_safety`: the accumulated error list
(`is_valid` is `errors == []`). -/
def validateQuerySafety (q : Str) : List String :=
  let qU := pyUpper q
  let opErrors := forbiddenOperations.filterMap (fun op =>
    if pyIn (' ' :: (op ++ [' '])) (' ' :: (qU ++ [' '])) then
      some ("Forbidden operation: " ++ String.mk op)
    else none)
  let qNorm := removeSpaceNl qU
  let patErrors := forbiddenPatterns.filterMap (fun pm =>
    if pyIn (removeSpace pm.1) qNorm then some pm.2 else none)
  let aggErrors :=
    if pyIn (strL ("SUM(")) qU || pyIn (strL ("AVG(")) qU then
      summaryCols.filterMap (fun col =>
        if pyIn col qU && aggRegexSearch col qU then
          some ("Summary column " ++ String.mk col ++ " used in aggregation - this will produce incorrect results")
        else none)
    else []
  let idErrors :=
    if pyIn (strL ("upload_id")) (pyLower q) then [] else ["Query must filter by upload_id"]
  opErrors ++ patErrors ++ aggErrors ++ idErrors

/-- The `is_valid` component returned by `validate_query_safety`. -/
def validateQuerySafetyValid (q : Str) : Bool := (validateQuerySafety q).isEmpty

/-- `forbidden` pattern/message pairs from `SQLGenerator.validate_sql_query`. -/
def generatorForbidden : List (Str × String) :=
  [ (strL ("SUM(TOTAL)"), "Use SUM(actual/projected/budget)"),
    (strL ("SUM(YTD_ACTUAL)"), "Use SUM(actual)"),
    (strL ("SUM(REMAINING_PROJECTION)"), "Use SUM(projected)"),
    (strL ("AVG(TOTAL)"), "Use AVG(actual/projected/budget)") ]

/-- `SQLGenerator.validate_sql_query`: list of validation errors. -/
def validateSqlQuery (q : Str) (uploadId : Str) : List String :=
  let qL := pyLower q
  let tableErrors :=
    if pyIn (strL ("revenue_tracker")) qL then []
    else ["Must use table revenue_tracker"]
  let idErrors :=
    if pyIn (strL ("upload_id")) qL then []
    else ["Must include WHERE upload_id = " ++ String.mk uploadId]
  let qNorm := removeSpace (pyUpper q)
  let patErrors := generatorForbidden.filterMap (fun pm =>
    if pyIn (removeSpace pm.1) qNorm then some pm.2 else none)
  tableErrors ++ idErrors ++ patErrors

/-- A row of the `revenue_tracker` store: its tenant key and a numeric
payload (one revenue figure suffices for the claims considered). -/
structure DbRow where
  uploadId : Str
  value : Int
deriving DecidableEq, Repr

/-- Result shape of `SupabaseManager.execute_raw_sql`. -/
structure RpcResult where
  success : Bool
  data : List DbRow
  error : Option String
deriving DecidableEq, Repr

/-- Result dict of `QueryExecutor.execute_sql`. -/
structure SqlExecResult where
  success : Bool
  result : List DbRow
  rowCount : Nat
  error : Option String
  warnings : List String
deriving DecidableEq, Repr

/-- `QueryExecutor._validate_results`: warn on suspiciously large values. -/
def validateResults (data : List DbRow) : List String :=
  data.filterMap (fun r =>
    if 500000 < r.value then some ("Warning: Large value detected") else none)

/-- `QueryExecutor.execute_sql`.  The Supabase RPC is an explicit
parameter `rpc`; note that the source forwards only the SQL text to it
and uses `upload_id` solely for logging. -/
def executeSql (rpc : Str → RpcResult) (sql : Str) (uploadId : Str) : SqlExecResult :=
  if (validateQuerySafety sql).isEmpty then
    let r := rpc sql
    if r.success then
      { success := true, result := r.data, rowCount := r.data.length,
        error := none, warnings := validateResults r.data }
    else
      { success := false, result := [], rowCount := 0,
        error := some (r.error.getD "Unknown error"), warnings := [] }
  else
    { success := false, result := [], rowCount := 0,
      error := some (String.intercalate ("; ") (validateQuerySafety sql)),
      warnings := [] }

/-- Modelled from the spec: the Supabase RPC `execute_custom_query` (it
lives in the database, not under `src/`) "executes the validated string
against the scoped relational store".  Only queries of the literal shape
`SELECT * FROM revenue_tracker WHERE upload_id = 'X'` are given
semantics here (returning exactly the rows whose key equals `X`); every
other string fails, which is enough for the claims about scoping. -/
def execCustomQuery (store : List DbRow) (sqlText : Str) : RpcResult :=
  let pre := strL ("SELECT * FROM revenue_tracker WHERE upload_id = ") ++ [sqC]
  if pre.isPrefixOf sqlText then
    let rest := sqlText.drop pre.length
    let x := rest.takeWhile (fun c => c != sqC)
    if rest.drop x.length = [sqC] then
      { success := true, data := store.filter (fun r => r.uploadId == x), error := none }
    else
      { success := false, data := [], error := some ("syntax error") }
  else
    { success := false, data := [], error := some ("unsupported query") }

end QueryExec

namespace CodeExec

/-!
Embedding of `src/services/code_executor.py` (`SafeCodeExecutor` and
`sanitize_code`).
-/

/-- Python/NumPy float values: a finite rational, NaN, or an infinity.
(The repository only compares and propagates these, so exact rationals
are a faithful stand-in for IEEE doubles here.) -/
inductive PyFloat where
  | fin (q : ℚ)
  | nan
  | inf
  | ninf
deriving DecidableEq, Repr

/-- `np.isnan(x) or np.isinf(x)`. -/
def PyFloat.isNanOrInf : PyFloat → Bool
  | .fin _ => false
  | _ => true

/-- Python runtime values reachable by `_make_json_serializable`:
primitives, NumPy scalars, NumPy numeric arrays, date-likes, NA markers,
and the nested containers (pandas Series/DataFrame are represented by
the key/value structure their `to_dict()` yields). -/
inductive PyVal where
  | vNone
  | vBool (b : Bool)
  | vInt (n : Int)
  | vFloat (x : PyFloat)
  | vStr (s : String)
  | npInt (n : Int)
  | npFloat (x : PyFloat)
  | ndarray (xs : List PyFloat)
  | dateLike (iso : String)
  | naMarker
  | vList (xs : List PyVal)
  | vTuple (xs : List PyVal)
  | vDict (kvs : List (PyVal × PyVal))
  | series (kvs : List (PyVal × PyVal))
  | frame (kvs : List (PyVal × PyVal))

/-- `str(key)` for dictionary keys that are not `str`/`int`/`float`. -/
def pyStrOfKey : PyVal → String
  | .vNone => "None"
  | .vBool b => if b then "True" else "False"
  | .vInt n => toString n
  | .npInt n => toString n
  | .dateLike s => s
  | _ => "object"

/-- Keys kept unchanged by `_make_json_serializable`: Python
`isinstance(key, (str, int, float))` (`bool` is a subclass of `int`). -/
def keyKept : PyVal → Bool
  | .vStr _ => true
  | .vInt _ => true
  | .vFloat _ => true
  | .vBool _ => true
  | _ => false

/-- Key conversion inside the dict branch of `_make_json_serializable`. -/
def serializeKey (k : PyVal) : PyVal :=
  if keyKept k then k else .vStr (pyStrOfKey k)

mutual

/-- `SafeCodeExecutor._make_json_serializable`, branch for branch in the
source order.  Note the `np.ndarray` branch returns `obj.tolist()`
without recursing into the elements, exactly as the source does. -/
def serializeVal : PyVal → PyVal
  | .vDict kvs => .vDict (serializePairs kvs)
  | .vList xs => .vList (serializeItems xs)
  | .vTuple xs => .vList (serializeItems xs)
  | .series kvs => .vDict (serializePairs kvs)
  | .frame kvs => .vDict (serializePairs kvs)
  | .npInt n => .vFloat (.fin n)
  | .npFloat x => if x.isNanOrInf then .vNone else .vFloat x
  | .vFloat x => if x.isNanOrInf then .vNone else .vFloat x
  | .ndarray xs => .vList (xs.map PyVal.vFloat)
  | .dateLike s => .vStr s
  | .naMarker => .vNone
  | .vNone => .vNone
  | .vBool b => .vBool b
  | .vInt n => .vInt n
  | .vStr s => .vStr s

def serializePairs : List (PyVal × PyVal) → List (PyVal × PyVal)
  | [] => []
  | (k, v) :: rest => (serializeKey k, serializeVal v) :: serializePairs rest

def serializeItems : List PyVal → List PyVal
  | [] => []
  | v :: rest => serializeVal v :: serializeItems rest

end

mutual

/-- Does a value tree contain a NaN or infinite numeric value at any
depth (the property the canonicalizer is claimed to eliminate)? -/
def containsBadFloat : PyVal → Bool
  | .vFloat x => x.isNanOrInf
  | .npFloat x => x.isNanOrInf
  | .ndarray xs => xs.any PyFloat.isNanOrInf
  | .vList xs => anyBadItem xs
  | .vTuple xs => anyBadItem xs
  | .vDict kvs => anyBadPair kvs
  | .series kvs => anyBadPair kvs
  | .frame kvs => anyBadPair kvs
  | _ => false

def anyBadItem : List PyVal → Bool
  | [] => false
  | v :: rest => containsBadFloat v || anyBadItem rest

def anyBadPair : List (PyVal × PyVal) → Bool
  | [] => false
  | (k, v) :: rest => containsBadFloat k || containsBadFloat v || anyBadPair rest

end

/-- The builtins mapping constructed inside `execute_code` and injected
as the execution scope `__builtins__` (keys of the `safe_builtins`
local, in source order). -/
def runtimeBuiltinNames : List String :=
  ["str", "int", "float", "len", "range", "min", "max", "sum", "abs", "round",
   "__import__", "any", "all", "zip", "enumerate", "sorted"]

/-- The `self.safe_builtins` mapping built in `SafeCodeExecutor.__init__`
(shadowed, never injected). -/
def initBuiltinNames : List String :=
  ["len", "str", "int", "float", "round", "sum", "max", "min", "abs", "sorted",
   "list", "dict", "tuple", "set", "bool", "enumerate", "range", "zip"]

/-- `dangerous_patterns` from `SafeCodeExecutor._is_code_safe`. -/
def dangerousPatterns : List Str :=
  (["import os", "import sys", "import subprocess",
    "exec(", "eval(", "open(", "file(",
    "__import__", "globals(", "locals(",
    "system", "popen", "subprocess"]).map String.data

/-- `SafeCodeExecutor._is_code_safe`: no dangerous pattern occurs in the
lowercased program text. -/
def isCodeSafe (code : Str) : Bool :=
  !(dangerousPatterns.any (fun p => pyIn p (pyLower code)))

/-- Split on newlines (for the per-line `(?m)^...$` substitutions of
`sanitize_code`). -/
def splitNl : Str → List Str
  | [] => [[]]
  | c :: cs =>
    if c = '\n' then [] :: splitNl cs
    else
      match splitNl cs with
      | [] => [[c]]
      | h :: t => (c :: h) :: t

/-- A line matching `^\s*import\s+.*$`. -/
def isImportLine (l : Str) : Bool :=
  let l1 := l.dropWhile wsChar
  (strL ("import")).isPrefixOf l1 &&
    (match l1.drop 6 with
     | c :: _ => wsChar c
     | [] => false)

/-- A line matching `^\s*from\s+.*import\s+.*$`. -/
def isFromImportLine (l : Str) : Bool :=
  let l1 := l.dropWhile wsChar
  (strL ("from")).isPrefixOf l1 &&
    (match l1.drop 4 with
     | c :: rest => wsChar c && (c :: rest).tails.any (fun t =>
         (strL ("import")).isPrefixOf t &&
           (match t.drop 6 with
            | d :: _ => wsChar d
            | [] => false))
     | [] => false)

/-- `sanitize_code`: blank out import lines (the match is replaced by the
empty string; the line separators survive). -/
def sanitizeCode (code : Str) : Str :=
  List.intercalate (strL ("\n"))
    ((splitNl code).map (fun l => if isImportLine l || isFromImportLine l then [] else l))

/-- Outcome of the raw `exec` call (external Python evaluation): either
terminates with the final binding of `query_result` (possibly absent,
i.e. `none`), or raises. -/
inductive ExecOutcome where
  | ok (queryResult : Option PyVal)
  | raised (msg : String)

/-- Result dict of `SafeCodeExecutor.execute_code`. -/
structure CodeExecResult where
  success : Bool
  result : Option PyVal
  error : Option String
  executedCode : Str

/-- `SafeCodeExecutor.execute_code`.  The Python `exec` is the explicit
parameter `interp`, which receives the builtins names exposed in the
scope and the sanitized program text. -/
def executeCode (interp : List String → Str → ExecOutcome) (code : Str) : CodeExecResult :=
  if !(isCodeSafe code) then
    { success := false, result := none,
      error := some ("Code failed security validation"), executedCode := code }
  else
    let code2 := sanitizeCode code
    match interp runtimeBuiltinNames code2 with
    | .ok r =>
        { success := true, result := r.map serializeVal, error := none, executedCode := code2 }
    | .raised msg =>
        { success := false, result := none, error := some msg, executedCode := code2 }

end CodeExec

namespace Normalizer

/-!
Embedding of `FileManager._normalize_dataframe` (steps 1-4) and
`FileManager._looks_like_date_column` from `src/services/file_manager.py`.
-/

/-- Structural errors raised (as `ValueError`) by steps 2 and 3 of
`_normalize_dataframe`. -/
inductive NormError where
  | dupCols (dups : List Str)
  | emptyCols (positions : List Nat)
deriving DecidableEq, Repr

def dupsOfAux (seen : List Str) : List Str → List Str
  | [] => []
  | c :: cs => if c ∈ seen then c :: dupsOfAux seen cs else dupsOfAux (c :: seen) cs

/-- `df.columns[df.columns.duplicated()].tolist()`: the labels that
repeat an earlier occurrence. -/
def dupsOf (l : List Str) : List Str := dupsOfAux [] l

/-- `df.columns.get_loc(c)`: index of the first occurrence. -/
def idxOfStr : List Str → Str → Nat
  | [], _ => 0
  | h :: t, c => if h = c then 0 else idxOfStr t c + 1

/-- Steps 1-3 of `_normalize_dataframe`: strip the column labels, abort
on duplicates (`len(df.columns) != len(set(df.columns))`), abort on
empty labels (`not col or str(col).strip() == ''`, which on an already
stripped label is just emptiness). -/
def checkColumns (cols : List Str) : Except NormError (List Str) :=
  let cleaned := cols.map pyStrip
  if cleaned.dedup.length ≠ cleaned.length then
    .error (.dupCols (dupsOf cleaned))
  else
    let empties := cleaned.filter (fun c => c.isEmpty)
    if !empties.isEmpty then
      .error (.emptyCols (empties.map (fun c => idxOfStr cleaned c)))
    else
      .ok cleaned

/-- Pandas dtype classes relevant to the normalizer branches. -/
inductive Dtype where
  | numericD
  | objectD
  | otherD
deriving DecidableEq, Repr

/-- One cell of a raw column: the raw value (`none` is a missing value)
together with the `pd.to_datetime` oracle for that value (false when the
value is missing or does not parse as a date). -/
structure ColCell where
  raw : Option Str
  parsesDate : Bool
deriving DecidableEq, Repr

/-- A raw column as seen by `_normalize_dataframe` step 4. -/
structure PyColumn where
  name : Str
  dtype : Dtype
  cells : List ColCell
deriving DecidableEq, Repr

/-- Leading `\d{4}` alternative of the date-shape regex (a slash or dash
anywhere, or a four-digit start). -/
def fourDigitStart (s : Str) : Bool :=
  match s with
  | a :: b :: c :: d :: _ => a.isDigit && b.isDigit && c.isDigit && d.isDigit
  | _ => false

/-- `re.search` of the date-shape regex on the cell text: a `/` or `-`
anywhere, or a four-digit start. -/
def dateShapedCell (c : ColCell) : Bool :=
  match c.raw with
  | none => false
  | some s => s.any (fun ch => ch = '/' || ch = '-') || fourDigitStart s

/-- `date_keywords` from `_looks_like_date_column` (`year`/`month` were
removed in the source as too generic). -/
def dateKeywords : List Str :=
  (["date", "time", "created", "modified", "timestamp", "datetime", "day", "dated"]).map String.data

/-- `series.dropna()`. -/
def nonNullCells (col : PyColumn) : List ColCell :=
  col.cells.filter (fun c => c.raw.isSome)

/-- `series.dropna().head(min(100, non_null_count))`. -/
def dateSample (col : PyColumn) : List ColCell :=
  (nonNullCells col).take (min 100 (nonNullCells col).length)

/-- Count of sample cells matching the date-shape regex. -/
def shapedCount (col : PyColumn) : Nat :=
  ((dateSample col).filter dateShapedCell).length

/-- Count of sample cells `pd.to_datetime` parses. -/
def parsedCount (col : PyColumn) : Nat :=
  ((dateSample col).filter (fun c => c.parsesDate)).length

/-- `any(keyword in column_name_lower for keyword in date_keywords)`. -/
def nameHasDateKeyword (col : PyColumn) : Bool :=
  dateKeywords.any (fun k => pyIn k (pyLower col.name))

/-- `FileManager._looks_like_date_column`.  The source compares float
ratios against the literals 0.5, 0.7 and 0.95; because the sample has at
most 100 elements, those float comparisons agree exactly with the
cross-multiplied rational comparisons used here. -/
def looksLikeDateColumn (col : PyColumn) : Bool :=
  if col.dtype = .numericD then false
  else if (nonNullCells col).length = 0 then false
  else if col.dtype ≠ .objectD then false
  else
    let n := (dateSample col).length
    if 2 * shapedCount col < n then false
    else if nameHasDateKeyword col && decide (7 * n < 10 * parsedCount col) then true
    else if decide (19 * n < 20 * parsedCount col) then true
    else false

/-- Date-ish name tokens as listed by claim C8. -/
def claimDateKeywords : List Str :=
  (["date", "time", "created", "modified", "timestamp", "day"]).map String.data

/-- Name hint as the claim words it. -/
def claimNameHint (col : PyColumn) : Bool :=
  claimDateKeywords.any (fun k => pyIn k (pyLower col.name))

/-- The selection rule exactly as claim C8 words it: (a) name hint and
more than 70 percent of the sample parses, or (b) no name hint, more
than 95 percent parses, and more than half the sample is date-shaped. -/
def dateColumnClaim (col : PyColumn) : Bool :=
  let n := (dateSample col).length
  !(col.dtype = .numericD) &&
    ((claimNameHint col && decide (7 * n < 10 * parsedCount col)) ||
     (!(claimNameHint col) && decide (19 * n < 20 * parsedCount col) &&
        decide (n < 2 * shapedCount col)))

/-- The amended selection rule: object-dtype (hence non-numeric) column
with at least one non-null value, date-shaped in at least half of the
sample, and either (name hint and more than 70 percent parses) or more
than 95 percent parses. -/
def dateColumnAmended (col : PyColumn) : Bool :=
  let n := (dateSample col).length
  decide (col.dtype = .objectD) && !((nonNullCells col).length = 0) &&
    decide (n ≤ 2 * shapedCount col) &&
    ((nameHasDateKeyword col && decide (7 * n < 10 * parsedCount col)) ||
      decide (19 * n < 20 * parsedCount col))

/-- Result of step 4 of `_normalize_dataframe` for one column. -/
inductive NormColumn where
  | dateCol (cells : List Bool) (lowConfidence : Bool)
  | numCol (cells : List (Option ℚ))
  | strCol (cells : List (Option Str))
  | allNullCol (cells : List ColCell)
  | numericPassCol
  | unhandledCol
deriving DecidableEq, Repr

/-- `null_values` replaced by `pd.NA` in the string-cleaning branch. -/
def nullSpellings : List Str :=
  (["nan", "NaN", "None", "NULL", "null", "", "N/A", "n/a", "NA"]).map String.data

/-- `astype(str).str.strip()` then `replace(null_values, pd.NA)` for one
cell; a missing value stringifies to `nan`, which is in the null list. -/
def cleanStrCell (c : ColCell) : Option Str :=
  let s := match c.raw with
    | none => strL ("nan")
    | some v => pyStrip v
  if s ∈ nullSpellings then none else some s

/-- `pd.to_numeric(df[col], errors='coerce')` cell-wise, with the
numeric parser `toNum` as an explicit oracle. -/
def coercedCells (toNum : Str → Option ℚ) (col : PyColumn) : List (Option ℚ) :=
  col.cells.map (fun c => c.raw.bind toNum)

/-- Step 4 of `_normalize_dataframe` for one column: date branch (4A),
object branch with numeric promotion or string cleaning (4B), numeric
pass-through (4C), unknown dtype (4D).  The float comparisons
`conversion_rate > 0.5` and `parse_success_rate < 50` are rendered by
exact cross-multiplication, which agrees with the source for all counts
below 2^52. -/
def normalizeColumn (toNum : Str → Option ℚ) (col : PyColumn) : NormColumn :=
  if looksLikeDateColumn col then
    let converted := col.cells.map (fun c => c.raw.isSome && c.parsesDate)
    let total := col.cells.length
    let parsedTotal := (converted.filter (fun b => b)).length
    .dateCol converted (decide (2 * parsedTotal < total))
  else if col.dtype = .objectD then
    let coerced := coercedCells toNum col
    let nonNullOrig := (nonNullCells col).length
    let nonNullNum := (coerced.filter Option.isSome).length
    if 0 < nonNullOrig then
      if nonNullOrig < 2 * nonNullNum then .numCol coerced
      else .strCol (col.cells.map cleanStrCell)
    else .allNullCol col.cells
  else if col.dtype = .numericD then .numericPassCol
  else .unhandledCol

/-- Modelled from the spec: `pd.to_numeric` on the scenario values of
claim C9 — plain digit strings coerce to their numeric value, anything
else fails to coerce. -/
def digitsToNum (s : Str) : Option ℚ :=
  if !s.isEmpty && s.all Char.isDigit then
    some ((s.foldl (fun a c => 10 * a + (c.toNat - 48)) 0 : ℕ) : ℚ)
  else none

end Normalizer

namespace Profiler

/-!
Embedding of `PythonSchemaDetector._analyze_all_columns` (per-column
statistics) from `src/services/schema_detector.py`.
-/

open CodeExec (PyFloat)

/-- Python `round(x)` to the nearest integer, ties to even (banker's
rounding), on the exact rational model of the float. -/
def bankersRound (x : ℚ) : ℤ :=
  let f := ⌊x⌋
  let r := x - f
  if r < 1/2 then f
  else if 1/2 < r then f + 1
  else if Even f then f else f + 1

/-- Python `round(x, 2)`. -/
def roundTo2 (x : ℚ) : ℚ := (bankersRound (x * 100) : ℚ) / 100

/-- `round(x, 2)` lifted to float values: NaN and infinities pass
through unchanged. -/
def pyRound2 : PyFloat → PyFloat
  | .fin q => .fin (roundTo2 q)
  | x => x

/-- Multiplication by 100, NaN/inf propagating. -/
def npMul100 : PyFloat → PyFloat
  | .fin q => .fin (q * 100)
  | x => x

/-- NumPy true division of nonnegative integer scalars
(`np.int64 / int`): `0 / 0` is NaN, `a / 0` with `a > 0` is +inf, and it
never raises. -/
def npDivNat (a b : ℕ) : PyFloat :=
  if b = 0 then (if a = 0 then .nan else .inf) else .fin ((a : ℚ) / (b : ℚ))

/-- `null_percentage`: `round((df[col].isnull().sum() / len(df)) * 100, 2)`.
The numerator is a NumPy integer, so a zero-row table yields NaN here
rather than raising. -/
def nullPercentageOf (cells : List (Option Str)) : PyFloat :=
  pyRound2 (npMul100 (npDivNat (cells.filter Option.isNone).length cells.length))

/-- `df[col].nunique()`: distinct non-null values. -/
def uniqueCountOf (cells : List (Option Str)) : ℕ :=
  (cells.filterMap id).dedup.length

/-- Per-column entry built by `_analyze_all_columns` (the numeric
fields; dtype string, samples and characteristics are orthogonal to the
claims). -/
structure ColumnAnalysis where
  nonNullCount : ℕ
  nullCount : ℕ
  nullPercentage : PyFloat
  uniqueValues : ℕ
  uniquePercentage : ℚ
  isConstant : Bool
deriving DecidableEq, Repr

/-- The per-column body of `_analyze_all_columns`.  The entries are
computed in source order: `null_percentage` (NumPy division, NaN on an
empty table) is computed before `unique_percentage`, whose plain Python
`int / int` division raises `ZeroDivisionError` when the table has zero
rows. -/
def analyzeColumn (cells : List (Option Str)) : Except String ColumnAnalysis :=
  let total := cells.length
  let nullPct := nullPercentageOf cells
  let uniq := uniqueCountOf cells
  if total = 0 then .error ("ZeroDivisionError: division by zero")
  else
    .ok { nonNullCount := (cells.filter Option.isSome).length,
          nullCount := (cells.filter Option.isNone).length,
          nullPercentage := nullPct,
          uniqueValues := uniq,
          uniquePercentage := roundTo2 ((uniq : ℚ) / (total : ℚ) * 100),
          isConstant := decide (uniq ≤ 1) }

end Profiler

namespace QueryExec

/-- A query that passes both SQL validators while naming another
tenant's key: the validators only look for the literal token
`upload_id`, not for the caller's value. -/
def crossTenantSql : Str :=
  strL ("SELECT * FROM revenue_tracker WHERE upload_id = ") ++ [sqC] ++ strL ("alice") ++ [sqC]

/-- The caller's scoping identifier in the counterexamples. -/
def bobId : Str := strL ("bob")

/-- A store row belonging to a different tenant. -/
def aliceRow : DbRow := { uploadId := strL ("alice"), value := 5 }

/-- An RPC stub used to witness rejection before execution. -/
def trivialRpc : Str → RpcResult := fun _ => { success := true, data := [], error := none }

/-- A query containing `drop table`, an inline comment, two statement
separators and a non-SELECT start, yet passing both validators. -/
def smuggledSql : Str := strL ("x;y;--drop table revenue_tracker upload_id")

/-- Number of `;` characters (claim C2: more than one means multiple
statements). -/
def semicolonCount (q : Str) : Nat := (q.filter (fun c => c = ';')).length

/-- Claim C2: the query starts with SELECT after trimming. -/
def startsWithSelect (q : Str) : Bool :=
  (strL ("SELECT")).isPrefixOf (pyUpper (pyStrip q))

/-- Claim C2: the query contains an inline comment marker. -/
def hasInlineComment (q : Str) : Bool :=
  pyIn (strL ("--")) q || pyIn (strL ("/*")) q

end QueryExec

namespace CodeExec

/-- Scenario D program text from the spec. -/
def scenarioDCode : Str :=
  strL ("import os; query_result = os.listdir(") ++ [sqC, '.', sqC, ')']

/-- A program that uses the `os` module without an import statement:
it contains the token `os` but none of the deny-list patterns. -/
def bareOsCode : Str := strL ("query_result = os.getcwd")

end CodeExec

namespace Normalizer

/-- A cell whose text parses as a date but is not date-shaped (no
slash, no dash, no four-digit start). -/
def juneCell : ColCell := { raw := some (strL ("June 1 2024")), parsesDate := true }

/-- An object-dtype column named `date` holding only `juneCell`. -/
def juneDateColumn : PyColumn :=
  { name := strL ("date"), dtype := .objectD, cells := [juneCell] }

/-- Scenario C column: `Budget` with values 100, 200, not_a_number. -/
def budgetColumn : PyColumn :=
  { name := strL ("Budget"), dtype := .objectD,
    cells := [ { raw := some (strL ("100")), parsesDate := false },
               { raw := some (strL ("200")), parsesDate := false },
               { raw := some (strL ("not_a_number")), parsesDate := false } ] }

/-- Scenario A raw column labels. -/
def scenarioACols : List Str := (["Date ", "Date ", "Amount"]).map String.data

end Normalizer

/-! ## Shared lemmas -/

theorem pyIn_iff {a b : Str} : pyIn a b = true ↔ a <:+: b := by
  simp [pyIn]

theorem dedup_length_eq_iff {α : Type} [DecidableEq α] {l : List α} :
    l.dedup.length = l.length ↔ l.Nodup := by
  constructor
  · intro h
    have hsub : List.Sublist l.dedup l := l.dedup_sublist
    have heq := hsub.eq_of_length h
    rw [← heq]
    exact l.nodup_dedup
  · intro h
    rw [h.dedup]

theorem pyStrip_eq (s : Str) :
    pyStrip s = List.rdropWhile wsChar (s.dropWhile wsChar) := rfl

theorem dropWhile_rdropWhile_dropWhile (p : Char → Bool) (s : Str) :
    List.dropWhile p (List.rdropWhile p (List.dropWhile p s)) =
      List.rdropWhile p (List.dropWhile p s) := by
  rw [List.dropWhile_eq_self_iff]
  intro hl
  have hpre : List.rdropWhile p (s.dropWhile p) <+: s.dropWhile p :=
    List.rdropWhile_prefix p (s.dropWhile p)
  have hgl : (List.rdropWhile p (s.dropWhile p)).get ⟨0, hl⟩ =
      (s.dropWhile p).get ⟨0, lt_of_lt_of_le hl hpre.length_le⟩ :=
    List.IsPrefix.get_eq hpre hl
  rw [hgl]
  exact List.dropWhile_get_zero_not p s (lt_of_lt_of_le hl hpre.length_le)

theorem pyStrip_idem (s : Str) : pyStrip (pyStrip s) = pyStrip s := by
  rw [pyStrip_eq, pyStrip_eq, dropWhile_rdropWhile_dropWhile]
  exact List.rdropWhile_idempotent wsChar (s.dropWhile wsChar)

/-! ## Claim theorems -/

open QueryExec CodeExec Normalizer Profiler

/-- C3: the builtins mapping that `execute_code` injects into the
execution scope does contain a `__import__` entry, although the
executor's own deny-list forbids that token in program text and the
init-time `self.safe_builtins` mapping (never injected) omits it; the
other reflection and filesystem builtins (`open`, `eval`, `exec`) are
indeed absent. -/
theorem c3_runtime_builtins_contain_import :
    ("__import__") ∈ runtimeBuiltinNames ∧
    ("__import__") ∉ initBuiltinNames ∧
    (strL ("__import__")) ∈ dangerousPatterns ∧
    ("open") ∉ runtimeBuiltinNames ∧
    ("eval") ∉ runtimeBuiltinNames ∧
    ("exec") ∉ runtimeBuiltinNames ∧
    ("os") ∉ runtimeBuiltinNames := by
  refine ⟨by decide, by decide, by decide, by decide, by decide, by decide, by decide⟩

/-- C5: the canonicalizer's `np.ndarray` branch returns `obj.tolist()`
without recursing, so a NaN inside a NumPy array survives
canonicalization (while the same NaN as a plain dict value is correctly
collapsed to the null sentinel). -/
theorem c5_ndarray_nan_survives :
    serializeVal (.ndarray [PyFloat.nan]) = .vList [.vFloat PyFloat.nan] ∧
    containsBadFloat (serializeVal (.ndarray [PyFloat.nan])) = true ∧
    serializeVal (.vDict [(.vStr "key", .vFloat PyFloat.nan)]) =
      .vDict [(.vStr "key", .vNone)] := by
  exact ⟨rfl, rfl, rfl⟩

/-- C6 counterexample: the program `query_result = os.getcwd` contains
the token `os` but none of the deny-list patterns, so the validator
accepts it and execution proceeds — the claim that every occurrence of
the token `os` is rejected is false. -/
theorem c6_counterexample :
    pyIn (strL ("os")) (pyLower bareOsCode) = true ∧
    isCodeSafe bareOsCode = true ∧
    (executeCode (fun _ _ => ExecOutcome.ok none) bareOsCode).success = true := by
  refine ⟨by decide, by decide, rfl⟩

/-- C6 (amended): pandas-mode validation rejects, case-insensitively,
every program containing one of the deny-list patterns (`import os`,
`import sys`, `import subprocess`, `exec(`, `eval(`, `open(`, `file(`,
`__import__`, `globals(`, `locals(`, `system`, `popen`, `subprocess`),
and `execute_code` then fails without invoking the interpreter; the
bare tokens `os` and `sys` are not in the deny-list. -/
theorem c6_dangerous_pattern_rejected (code p : Str)
    (interp : List String → Str → ExecOutcome)
    (hp : p ∈ dangerousPatterns) (hin : p <:+: pyLower code) :
    isCodeSafe code = false ∧
    (executeCode interp code).success = false ∧
    (executeCode interp code).error = some ("Code failed security validation") := by
  have hsafe : isCodeSafe code = false := by
    unfold isCodeSafe
    simp only [Bool.not_eq_false', List.any_eq_true]
    exact ⟨p, hp, pyIn_iff.mpr hin⟩
  refine ⟨hsafe, ?_, ?_⟩ <;> unfold executeCode <;> rw [hsafe] <;> rfl

/-- C6 witness: Scenario D's program text is rejected via the
`import os` pattern. -/
theorem c6_dangerous_pattern_rejected_witness :
    (strL ("import os")) ∈ dangerousPatterns ∧
    ((strL ("import os")) <:+: pyLower scenarioDCode) ∧
    isCodeSafe scenarioDCode = false := by
  refine ⟨by decide, by decide, ?_⟩
  exact (c6_dangerous_pattern_rejected scenarioDCode (strL ("import os"))
    (fun _ _ => ExecOutcome.ok none) (by decide) (by decide)).1

/-- C8 counterexample: a column named `date` whose single value
`June 1 2024` parses as a date (name hint present, parse rate 100
percent) is nevertheless not selected, because the value is not
date-shaped and the source applies the date-shape gate before the
name-hint branch — contradicting the claim's rule (a). -/
theorem c8_counterexample :
    looksLikeDateColumn juneDateColumn = false ∧
    dateColumnClaim juneDateColumn = true := by
  refine ⟨by decide, by decide⟩

theorem isEmpty_false_of_ne_nil {α : Type} {l : List α} (h : l ≠ []) :
    l.isEmpty = false := by
  cases l with
  | nil => exact absurd rfl h
  | cons a t => rfl

/-- C1 counterexample: a query naming another tenant's key (`alice`)
does not reference the caller's scoping identifier (`bob`), yet both
validators accept it and `execute_sql` runs it successfully — the
validators only look for the literal token `upload_id`, not the
caller's value. -/
theorem c1_counterexample :
    pyIn (pyLower bobId) (pyLower crossTenantSql) = false ∧
    validateQuerySafetyValid crossTenantSql = true ∧
    validateSqlQuery crossTenantSql bobId = [] ∧
    (executeSql (execCustomQuery [aliceRow]) crossTenantSql bobId).success = true := by
  refine ⟨by decide, by decide, by decide, by decide⟩

/-- C1 (amended): if the lowercased query does not contain the literal
substring `upload_id`, then `validate_query_safety` reports it invalid,
`validate_sql_query` reports an error, and `execute_sql` returns the
validation failure without consulting the store (the result is the same
fixed failure record for every RPC behaviour). -/
theorem c1_upload_token_rejection (q uid : Str) (rpc : Str → RpcResult)
    (h : pyIn (strL ("upload_id")) (pyLower q) = false) :
    validateQuerySafetyValid q = false ∧
    validateSqlQuery q uid ≠ [] ∧
    executeSql rpc q uid =
      { success := false, result := [], rowCount := 0,
        error := some (String.intercalate ("; ") (validateQuerySafety q)),
        warnings := [] } := by
  have hne : validateQuerySafety q ≠ [] := by
    simp [validateQuerySafety, h]
  have h1 : validateQuerySafetyValid q = false := isEmpty_false_of_ne_nil hne
  have h1' : (validateQuerySafety q).isEmpty = false := h1
  refine ⟨h1, ?_, ?_⟩
  · simp [validateSqlQuery, h]
  · unfold executeSql
    rw [h1']
    rfl

/-- C1 witness: a token-free query is rejected by both validators and
`execute_sql` fails without running it. -/
theorem c1_upload_token_rejection_witness :
    pyIn (strL ("upload_id")) (pyLower (strL ("SELECT 1"))) = false ∧
    validateQuerySafetyValid (strL ("SELECT 1")) = false ∧
    validateSqlQuery (strL ("SELECT 1")) bobId ≠ [] ∧
    (executeSql trivialRpc (strL ("SELECT 1")) bobId).success = false := by
  have h : pyIn (strL ("upload_id")) (pyLower (strL ("SELECT 1"))) = false := by decide
  have hmain := c1_upload_token_rejection (strL ("SELECT 1")) bobId trivialRpc h
  exact ⟨h, hmain.1, hmain.2.1, by rw [hmain.2.2]⟩

/-- C2 counterexample: a query that contains `drop table` (hence
`DROP TABLE` in upper case), an inline `--` comment, two `;` separators
and does not start with SELECT, yet passes `validate_query_safety` and
`validate_sql_query`: the forbidden-operation scan only matches
space-delimited tokens and neither validator checks comments, statement
counts, or a SELECT prefix. -/
theorem c2_counterexample :
    pyIn (strL ("DROP TABLE")) (pyUpper smuggledSql) = true ∧
    hasInlineComment smuggledSql = true ∧
    1 < semicolonCount smuggledSql ∧
    startsWithSelect smuggledSql = false ∧
    validateQuerySafetyValid smuggledSql = true ∧
    validateSqlQuery smuggledSql bobId = [] := by
  refine ⟨by decide, by decide, by decide, by decide, by decide, by decide⟩

/-- C2 (amended): `validate_query_safety` rejects every query in which
one of the ten forbidden operations occurs as a space-delimited token of
the uppercased query (a space, or the string boundary, on both sides);
occurrences glued to other characters — such as `;DROP` — are not
rejected, and no comment, statement-count or SELECT-prefix check
exists. -/
theorem c2_space_delimited_rejection (q op : Str)
    (hop : op ∈ forbiddenOperations)
    (hin : (' ' :: (op ++ [' '])) <:+: (' ' :: (pyUpper q ++ [' ']))) :
    validateQuerySafetyValid q = false := by
  have hne : validateQuerySafety q ≠ [] := by
    unfold validateQuerySafety
    intro hcontra
    simp only [List.append_eq_nil] at hcontra
    obtain ⟨⟨⟨hops, _⟩, _⟩, _⟩ := hcontra
    rw [List.filterMap_eq_nil] at hops
    have hop2 := hops op hop
    rw [if_pos (pyIn_iff.mpr hin)] at hop2
    exact Option.some_ne_none _ hop2
  exact isEmpty_false_of_ne_nil hne

/-- C2 witness: the query `drop` carries the space-delimited token
`DROP` and is rejected. -/
theorem c2_space_delimited_rejection_witness :
    (strL ("DROP")) ∈ forbiddenOperations ∧
    ((' ' :: (strL ("DROP") ++ [' '])) <:+: (' ' :: (pyUpper (strL ("drop")) ++ [' ']))) ∧
    validateQuerySafetyValid (strL ("drop")) = false := by
  refine ⟨by decide, by decide, ?_⟩
  exact c2_space_delimited_rejection (strL ("drop")) (strL ("DROP")) (by decide) (by decide)

/-- C4: `execute_sql` forwards only the SQL text to the store and never
applies the caller's `upload_id` to the executed query: over two stores
that agree on every row of the caller (`bob`) and differ only in another
tenant's rows, the validated query succeeds and returns different
results — including the other tenant's row. -/
theorem c4_no_implicit_scoping :
    (([aliceRow] : List DbRow).filter (fun r => r.uploadId == bobId) =
      ([] : List DbRow).filter (fun r => r.uploadId == bobId)) ∧
    (executeSql (execCustomQuery [aliceRow]) crossTenantSql bobId).success = true ∧
    (executeSql (execCustomQuery [aliceRow]) crossTenantSql bobId).result = [aliceRow] ∧
    (executeSql (execCustomQuery [aliceRow]) crossTenantSql bobId).result ≠
      (executeSql (execCustomQuery []) crossTenantSql bobId).result := by
  refine ⟨by decide, by decide, by decide, by decide⟩

/-- C7: after trimming the column labels, normalization aborts with the
duplicate-column error whenever two labels coincide, aborts with the
empty-column error whenever a label is empty, and any table it does
return has exactly the trimmed labels — pairwise distinct, non-empty
and already-trimmed (no silent renaming). -/
theorem c7_structural_column_checks (cols : List Str) :
    (¬ (cols.map pyStrip).Nodup →
        checkColumns cols = .error (.dupCols (dupsOf (cols.map pyStrip)))) ∧
    ((cols.map pyStrip).Nodup →
      (∃ c ∈ cols.map pyStrip, c = []) →
        checkColumns cols = .error (.emptyCols
          (((cols.map pyStrip).filter (fun c => c.isEmpty)).map
            (fun c => idxOfStr (cols.map pyStrip) c)))) ∧
    (∀ out, checkColumns cols = .ok out →
        out = cols.map pyStrip ∧ out.Nodup ∧ ∀ c ∈ out, c ≠ [] ∧ pyStrip c = c) := by
  refine ⟨?_, ?_, ?_⟩
  · intro hnd
    have hlen : (cols.map pyStrip).dedup.length ≠ (cols.map pyStrip).length :=
      fun hcontra => hnd (dedup_length_eq_iff.mp hcontra)
    simp only [checkColumns]
    rw [if_pos hlen]
  · intro hnd hex
    have hlen : (cols.map pyStrip).dedup.length = (cols.map pyStrip).length :=
      dedup_length_eq_iff.mpr hnd
    obtain ⟨c, hc, hce⟩ := hex
    have hmem : c ∈ (cols.map pyStrip).filter (fun d => d.isEmpty) := by
      rw [List.mem_filter]
      exact ⟨hc, by rw [hce]; rfl⟩
    have hne : (cols.map pyStrip).filter (fun d => d.isEmpty) ≠ [] :=
      List.ne_nil_of_mem hmem
    simp only [checkColumns]
    rw [if_neg (not_not_intro hlen)]
    rw [if_pos (by rw [isEmpty_false_of_ne_nil hne]; rfl)]
  · intro out hok
    simp only [checkColumns] at hok
    by_cases h1 : (cols.map pyStrip).dedup.length ≠ (cols.map pyStrip).length
    · rw [if_pos h1] at hok
      simp at hok
    · rw [if_neg h1] at hok
      by_cases h2 : (cols.map pyStrip).filter (fun d => d.isEmpty) = []
      · have h2e : ((cols.map pyStrip).filter (fun d => d.isEmpty)).isEmpty = true := by
          rw [h2]
          rfl
        rw [h2e] at hok
        simp only [Bool.not_true] at hok
        rw [if_neg (by simp)] at hok
        have hout : (cols.map pyStrip) = out := by
          simpa using hok
        refine ⟨hout.symm, ?_, ?_⟩
        · rw [← hout]
          exact dedup_length_eq_iff.mp (not_not.mp h1)
        · intro c hcmem
          rw [← hout] at hcmem
          constructor
          · intro hcnil
            have : c ∈ (cols.map pyStrip).filter (fun d => d.isEmpty) := by
              rw [List.mem_filter]
              exact ⟨hcmem, by rw [hcnil]; rfl⟩
            rw [h2] at this
            exact absurd this (List.not_mem_nil c)
          · obtain ⟨a, _, ha⟩ := List.mem_map.mp hcmem
            rw [← ha]
            exact pyStrip_idem a
      · have h2e : ((cols.map pyStrip).filter (fun d => d.isEmpty)).isEmpty = false :=
          isEmpty_false_of_ne_nil h2
        rw [h2e] at hok
        simp at hok

/-- C7 witness: Scenario A — the raw labels `Date `, `Date `, `Amount`
collide after trimming and normalization aborts with the
duplicate-column error. -/
theorem c7_structural_column_checks_witness :
    ¬ (scenarioACols.map pyStrip).Nodup ∧
    checkColumns scenarioACols = .error (.dupCols [strL ("Date")]) := by
  have hnd : ¬ (scenarioACols.map pyStrip).Nodup := by decide
  have hmain := (c7_structural_column_checks scenarioACols).1 hnd
  exact ⟨hnd, hmain.trans rfl⟩

/-- C9: for an object-dtype column that was not selected for date
conversion and has at least one non-null value, the whole column is
promoted to numeric exactly when strictly more than half of the
non-null values coerce (the failures becoming null), and otherwise kept
as trimmed strings with the common null spellings unified to the null
sentinel. -/
theorem c9_numeric_promotion (toNum : Str → Option ℚ) (col : PyColumn)
    (hobj : col.dtype = .objectD)
    (hdate : looksLikeDateColumn col = false)
    (hnn : 0 < (nonNullCells col).length) :
    ((nonNullCells col).length < 2 * ((coercedCells toNum col).filter Option.isSome).length →
      normalizeColumn toNum col = .numCol (coercedCells toNum col)) ∧
    (2 * ((coercedCells toNum col).filter Option.isSome).length ≤ (nonNullCells col).length →
      normalizeColumn toNum col = .strCol (col.cells.map cleanStrCell)) := by
  constructor <;> intro h
  · simp only [normalizeColumn, hdate, hobj]
    rw [if_pos trivial, if_pos hnn, if_pos h]
    simp
  · simp only [normalizeColumn, hdate, hobj]
    rw [if_pos trivial, if_pos hnn, if_neg (Nat.not_lt.mpr h)]
    simp

/-- C9 witness: Scenario C — the `Budget` column with values `100`,
`200`, `not_a_number` is promoted to numeric (two of three coerce) and
the third cell becomes null. -/
theorem c9_numeric_promotion_witness :
    budgetColumn.dtype = .objectD ∧
    looksLikeDateColumn budgetColumn = false ∧
    0 < (nonNullCells budgetColumn).length ∧
    normalizeColumn digitsToNum budgetColumn = .numCol [some 100, some 200, none] := by
  refine ⟨by decide, by decide, by decide, ?_⟩
  have hmain := (c9_numeric_promotion digitsToNum budgetColumn
    (by decide) (by decide) (by decide)).1 (by decide)
  exact hmain.trans (by decide)

/-- C8 (amended): a column is selected for datetime conversion exactly
when it is an object-dtype (hence non-numeric) column with at least one
non-null value whose bounded sample is date-shaped in at least half of
its entries, and either the name carries a date-ish token with more than
70 percent of the sample parsing, or more than 95 percent of the sample
parses.  (Versus the claim: the date-shape gate also applies to the
name-hint branch, `at least half` rather than `more than half`, and
non-object dtypes are never selected.) -/
theorem c8_date_detection_amended (col : PyColumn) :
    looksLikeDateColumn col = dateColumnAmended col := by
  unfold looksLikeDateColumn dateColumnAmended
  rcases hdt : col.dtype with _ | _ | _
  · simp [hdt]
  · by_cases h0 : (nonNullCells col).length = 0
    · simp [hdt, h0]
    · by_cases h1 : 2 * shapedCount col < (dateSample col).length
      · simp [hdt, h0, h1, show ¬((dateSample col).length ≤ 2 * shapedCount col) from by omega]
      · have h1' : (dateSample col).length ≤ 2 * shapedCount col := Nat.not_lt.mp h1
        by_cases hn : nameHasDateKeyword col = true <;>
          by_cases h7 : 7 * (dateSample col).length < 10 * parsedCount col <;>
          by_cases h19 : 19 * (dateSample col).length < 20 * parsedCount col <;>
          simp [hdt, h0, h1, h1', hn, h7, h19]
  · simp [hdt]

theorem roundTo2_natCast (n : ℕ) : roundTo2 ((n : ℕ) : ℚ) = ((n : ℕ) : ℚ) := by
  simp only [roundTo2, bankersRound]
  have h1 : ((n : ℚ) * 100) = (((n * 100 : ℕ) : ℤ) : ℚ) := by push_cast; ring
  rw [h1, Int.floor_intCast]
  norm_num

/-- C10 counterexample: on a zero-row table the per-column analysis
raises `ZeroDivisionError` at the unique-rate, and the null-percentage
value computed just before it is NaN — neither rate is reported as 0. -/
theorem c10_counterexample :
    analyzeColumn ([] : List (Option Str)) =
      .error ("ZeroDivisionError: division by zero") ∧
    nullPercentageOf ([] : List (Option Str)) = PyFloat.nan := by
  exact ⟨rfl, rfl⟩

/-- C10 (amended): for a column of a table with at least one row, the
profiler reports the null and unique percentages (the rates scaled by
100 and rounded to two decimals); for a zero-row table it does not
report zeros — the NumPy null-rate division yields NaN and the plain
Python unique-rate division raises `ZeroDivisionError`. -/
theorem c10_rates (cells : List (Option Str)) :
    (cells.length = 0 →
        analyzeColumn cells = .error ("ZeroDivisionError: division by zero") ∧
        nullPercentageOf cells = PyFloat.nan) ∧
    (cells.length ≠ 0 →
        analyzeColumn cells = .ok
          { nonNullCount := (cells.filter Option.isSome).length,
            nullCount := (cells.filter Option.isNone).length,
            nullPercentage := .fin (roundTo2
              (((cells.filter Option.isNone).length : ℚ) / (cells.length : ℚ) * 100)),
            uniqueValues := uniqueCountOf cells,
            uniquePercentage := roundTo2 ((uniqueCountOf cells : ℚ) / (cells.length : ℚ) * 100),
            isConstant := decide (uniqueCountOf cells ≤ 1) }) := by
  constructor
  · intro h
    have hnil : cells = [] := List.length_eq_zero.mp h
    subst hnil
    exact ⟨rfl, rfl⟩
  · intro h
    simp only [analyzeColumn]
    rw [if_neg h]
    simp [nullPercentageOf, npDivNat, npMul100, pyRound2, h]

/-- C10 witness: a one-row all-null column is profiled without error,
with a 100 percent null rate and a 0 percent unique rate. -/
theorem c10_rates_witness :
    (([none] : List (Option Str)).length ≠ 0) ∧
    analyzeColumn ([none] : List (Option Str)) =
      .ok { nonNullCount := 0, nullCount := 1, nullPercentage := .fin 100,
            uniqueValues := 0, uniquePercentage := 0, isConstant := true } := by
  have h := (c10_rates ([none] : List (Option Str))).2 (by decide)
  refine ⟨by decide, h.trans ?_⟩
  have e1 : (((([none] : List (Option Str)).filter Option.isNone).length : ℚ) /
      ((([none] : List (Option Str)).length : ℚ)) * 100) = ((100 : ℕ) : ℚ) := by
    norm_num
  have e2 : ((uniqueCountOf ([none] : List (Option Str)) : ℚ) /
      ((([none] : List (Option Str)).length : ℚ)) * 100) = ((0 : ℕ) : ℚ) := by
    norm_num [uniqueCountOf]
  rw [e1, e2, roundTo2_natCast, roundTo2_natCast]
  norm_num [uniqueCountOf]
